import Mathlib

/-!
Verification of the provider-selection and response-formatting pipeline of the
mcp-weather-server repository (Rust sources: src/service.rs, src/formatters.rs,
src/models.rs, src/constants.rs).

Shallow-embedding conventions:

* Rust `f64` is modelled by `FP`: NaN, the two infinities, or an exact rational
  value.  IEEE comparisons (`>=`, `<=`) are embedded by `FP.ge` / `FP.le`,
  which are `false` whenever either side is NaN and otherwise follow the
  rational order with the infinities at the ends.  `Display` (`format!` with
  no precision) prints the exact decimal expansion of the rational payload,
  which agrees with Rust for every value used by the claims; `format!` with a
  fixed precision (such as the source's 1- and 4-decimal renderings) is
  embedded by `fmtFixed`, rounding half to even as Rust's formatter does.
* Rust `Vec` is a `List`, and the panicking index operation `v[i]` is the
  partial access `List.get?` threaded through `Option`; an out-of-bounds
  access therefore surfaces as `none` (the aborted tool call).
* The HTTP layer is a stub `Transport`: one typed endpoint per response shape,
  keyed by the request URL, returning a status code and either a decoded body
  or a decode-error message.  `make_request` reproduces the status check and
  the error strings of `Weather::make_request`; the status is displayed by its
  numeral (reqwest appends a canonical reason phrase, which never contains a
  digit and so never affects the `contains("404")` test).
* The two tool handlers return the issued URL trace alongside the result, so
  that routing claims can be stated about which fetches were performed.
-/

set_option maxRecDepth 40000

namespace WeatherServer

/-- Embedding of `f64`: NaN, the infinities, or an exact rational value. -/
inductive FP where
  | nan : FP
  | inf : FP
  | negInf : FP
  | fin : ℚ → FP
deriving DecidableEq

/-- IEEE `<=` on the embedded floats: false when either side is NaN. -/
def FP.le : FP → FP → Bool
  | .nan, _ => false
  | _, .nan => false
  | .negInf, _ => true
  | _, .negInf => false
  | _, .inf => true
  | .inf, _ => false
  | .fin a, .fin b => decide (a ≤ b)

/-- IEEE `>=` on the embedded floats. -/
def FP.ge (a b : FP) : Bool := FP.le b a

/-- Constant from src/constants.rs: `USER_AGENT`. -/
def USER_AGENT : String := "mcp-rust-weather-server/0.1.0"

/-- Constant from src/constants.rs: `NWS_API_BASE`. -/
def NWS_API_BASE : String := "https://api.weather.gov"

/-- Constant from src/constants.rs: `OPEN_METEO_API_BASE`. -/
def OPEN_METEO_API_BASE : String := "https://api.open-meteo.com/v1"

/-- Decimal digits of the fractional part of a rational in `[0, 1)`;
fuel-bounded (every `f64` has a finite decimal expansion). -/
def fracDigits : Nat → ℚ → String
  | 0, _ => ""
  | fuel + 1, q =>
    if q = 0 then ""
    else
      let d : Int := (q * 10).floor
      toString d ++ fracDigits fuel (q * 10 - (d : ℚ))

/-- Exact decimal rendering of a rational, as Rust `Display` prints the
corresponding float (no trailing fractional zeros, no ".0" on integers). -/
def dispQ (q : ℚ) : String :=
  let sign := if q < 0 then "-" else ""
  let a := |q|
  let ip : Nat := a.floor.toNat
  let frac : ℚ := a - (a.floor : ℚ)
  if frac = 0 then sign ++ toString ip
  else sign ++ toString ip ++ "." ++ fracDigits 1200 frac

/-- Rust `Display` for the embedded floats. -/
def dispFP : FP → String
  | .nan => "NaN"
  | .inf => "inf"
  | .negInf => "-inf"
  | .fin q => dispQ q

/-- Round to the nearest integer, ties to even (the rounding Rust's
fixed-precision formatter applies to the exact value). -/
def roundHalfEven (q : ℚ) : Int :=
  let n := q.floor
  let frac := q - (n : ℚ)
  if frac < 1/2 then n
  else if 1/2 < frac then n + 1
  else if n % 2 = 0 then n else n + 1

/-- Left-pad a digit string with zeros to width `k`. -/
def padZeros (s : String) (k : Nat) : String :=
  String.mk (List.replicate (k - s.length) '0') ++ s

/-- Rust `format!` with precision `k` (such as the source's 1dp and 4dp
renderings) on the embedded floats. -/
def fmtFixed (k : Nat) : FP → String
  | .nan => "NaN"
  | .inf => "inf"
  | .negInf => "-inf"
  | .fin q =>
    let sign := if q < 0 then "-" else ""
    let n : Nat := (roundHalfEven (|q| * (10 : ℚ) ^ k)).toNat
    if k = 0 then sign ++ toString n
    else sign ++ toString (n / 10 ^ k) ++ "." ++ padZeros (toString (n % 10 ^ k)) k

/-- Character-list substring test: does `needle` occur contiguously? -/
def listContains (needle : List Char) : List Char → Bool
  | [] => needle.isPrefixOf []
  | c :: rest => needle.isPrefixOf (c :: rest) || listContains needle rest

/-- Substring test (`str::contains` on a string pattern). -/
def containsSubstr (needle s : String) : Bool :=
  listContains needle.toList s.toList

/-- Number of positions at which `needle` occurs in the character list. -/
def countOcc (needle : List Char) : List Char → Nat
  | [] => 0
  | c :: rest => (if needle.isPrefixOf (c :: rest) then 1 else 0) + countOcc needle rest

/-- Number of occurrences of a pattern in a string, counted by position. -/
def countOccurrences (needle s : String) : Nat :=
  countOcc needle.toList s.toList

/-- Record from src/models.rs: `AlertProperties`. -/
structure AlertProperties where
  event : String
  headline : Option String
  description : Option String
  severity : String
  area_desc : String
deriving DecidableEq

/-- Record from src/models.rs: `AlertFeature`. -/
structure AlertFeature where
  properties : AlertProperties
deriving DecidableEq

/-- Record from src/models.rs: `AlertResponse`. -/
structure AlertResponse where
  features : List AlertFeature
deriving DecidableEq

/-- Record from src/models.rs: `PointsProperties` (gridId / gridX / gridY). -/
structure PointsProperties where
  grid_id : String
  grid_x : Int
  grid_y : Int
deriving DecidableEq

/-- Record from src/models.rs: `PointsResponse`. -/
structure PointsResponse where
  properties : PointsProperties
deriving DecidableEq

/-- Record from src/models.rs: `ForecastPeriod` (temperature is an `i32`). -/
structure ForecastPeriod where
  name : String
  temperature : Int
  temperature_unit : String
  wind_speed : String
  wind_direction : String
  short_forecast : String
  detailed_forecast : String
deriving DecidableEq

/-- Record from src/models.rs: `ForecastProperties`. -/
structure ForecastProperties where
  periods : List ForecastPeriod
deriving DecidableEq

/-- Record from src/models.rs: `ForecastResponse`. -/
structure ForecastResponse where
  properties : ForecastProperties
deriving DecidableEq

/-- Record from src/models.rs: `DailyData` — six parallel arrays. -/
structure DailyData where
  time : List String
  temperature_max : List FP
  temperature_min : List FP
  weather_code : List Int
  wind_speed_max : List FP
  precipitation_sum : List FP
deriving DecidableEq

/-- Record from src/models.rs: `DailyUnits`.  Note the deserialized record has
unit strings only for `temperature_2m_max`, `wind_speed_10m_max` and
`precipitation_sum`; there is no minimum-temperature unit field at all. -/
structure DailyUnits where
  temperature_max : String
  wind_speed_max : String
  precipitation_sum : String
deriving DecidableEq

/-- Record from src/models.rs: `OpenMeteoResponse`. -/
structure OpenMeteoResponse where
  latitude : FP
  longitude : FP
  timezone : String
  daily : DailyData
  daily_units : DailyUnits
deriving DecidableEq

/-- Request record from src/models.rs: `GetForecastRequest`. -/
structure GetForecastRequest where
  latitude : FP
  longitude : FP
deriving DecidableEq

/-- Request record from src/models.rs: `GetAlertsRequest`. -/
structure GetAlertsRequest where
  state : String
deriving DecidableEq

/-- One alert block of `format_alerts` (src/formatters.rs): the body of the
`for (i, feature)` loop, for the zero-based index `i`; the final blank line is
the `output.push` of the newline at the end of the iteration. -/
def alert_block (i : Nat) (feature : AlertFeature) : String :=
  let props := feature.properties
  ("Alert " ++ toString (i + 1) ++ ":\n  Event: " ++ props.event ++
      "\n  Severity: " ++ props.severity ++ "\n  Area: " ++ props.area_desc ++ "\n") ++
    (match props.headline with
      | some headline => "  Headline: " ++ headline ++ "\n"
      | none => "") ++
    (match props.description with
      | some description => "  Description: " ++ description ++ "\n"
      | none => "") ++
    "\n"

/-- Embedding of `format_alerts` (src/formatters.rs). -/
def format_alerts (alerts : AlertResponse) : String :=
  if alerts.features.isEmpty then "No active weather alerts."
  else
    "Active Weather Alerts:\n\n" ++
      String.join (alerts.features.enum.map (fun p => alert_block p.1 p.2))

/-- One period block of `format_forecast` (src/formatters.rs). -/
def period_block (period : ForecastPeriod) : String :=
  period.name ++ ":\n  Temperature: " ++ toString period.temperature ++ "°" ++
    period.temperature_unit ++ "\n  Wind: " ++ period.wind_speed ++ " " ++
    period.wind_direction ++ "\n  Conditions: " ++ period.short_forecast ++
    "\n  Details: " ++ period.detailed_forecast ++ "\n\n"

/-- Embedding of `format_forecast` (src/formatters.rs). -/
def format_forecast (forecast : ForecastResponse) : String :=
  "Weather Forecast:\n\n" ++ String.join (forecast.properties.periods.map period_block)

/-- Embedding of `weather_code_to_description` (src/formatters.rs); the Rust
`match` on the `i32` code is an ordered test chain. -/
def weather_code_to_description (code : Int) : String :=
  if code = 0 then "Clear sky"
  else if code = 1 then "Mainly clear"
  else if code = 2 then "Partly cloudy"
  else if code = 3 then "Overcast"
  else if code = 45 ∨ code = 48 then "Foggy"
  else if code = 51 ∨ code = 53 ∨ code = 55 then "Drizzle"
  else if code = 61 ∨ code = 63 ∨ code = 65 then "Rain"
  else if code = 71 ∨ code = 73 ∨ code = 75 then "Snow"
  else if code = 77 then "Snow grains"
  else if code = 80 ∨ code = 81 ∨ code = 82 then "Rain showers"
  else if code = 85 ∨ code = 86 then "Snow showers"
  else if code = 95 then "Thunderstorm"
  else if code = 96 ∨ code = 99 then "Thunderstorm with hail"
  else "Unknown"

/-- Temperature line of an Open-Meteo day block: minimum first, maximum
second, and the same unit string `u` attached to both values (the source
passes `daily_units.temperature_max` for both placeholders). -/
def temp_line (tmin tmax : FP) (u : String) : String :=
  "  Temperature: " ++ fmtFixed 1 tmin ++ "°" ++ u ++ " - " ++
    fmtFixed 1 tmax ++ "°" ++ u ++ "\n"

/-- Tail of an Open-Meteo day block: conditions, wind speed, precipitation,
and the blank separator line. -/
def om_day_rest (units : DailyUnits) (code : Int) (wind prec : FP) : String :=
  "  Conditions: " ++ weather_code_to_description code ++ "\n  Wind Speed: " ++
    fmtFixed 1 wind ++ " " ++ units.wind_speed_max ++ "\n  Precipitation: " ++
    fmtFixed 1 prec ++ " " ++ units.precipitation_sum ++ "\n\n"

/-- One day block of `format_open_meteo_forecast` (src/formatters.rs): the
body of the loop at index `i`, with every `Vec` index embedded as a partial
access so that an out-of-bounds index yields `none` (the Rust panic). -/
def day_block (f : OpenMeteoResponse) (i : Nat) : Option String := do
  let code ← f.daily.weather_code.get? i
  let date ← f.daily.time.get? i
  let tmin ← f.daily.temperature_min.get? i
  let tmax ← f.daily.temperature_max.get? i
  let wind ← f.daily.wind_speed_max.get? i
  let prec ← f.daily.precipitation_sum.get? i
  pure ((date ++ ":\n") ++ temp_line tmin tmax f.daily_units.temperature_max ++
    om_day_rest f.daily_units code wind prec)

/-- Option-valued map over a list; `none` as soon as one element fails
(the iteration of the formatter loop, aborted by the first panic). -/
def mapOpt {α β : Type} (g : α → Option β) : List α → Option (List β)
  | [] => some []
  | a :: l =>
    match g a, mapOpt g l with
    | some b, some bs => some (b :: bs)
    | _, _ => none

/-- The day blocks rendered by the loop `for i in 0..time.len().min(7)`. -/
def open_meteo_blocks (f : OpenMeteoResponse) : Option (List String) :=
  mapOpt (day_block f) (List.range (f.daily.time.length.min 7))

/-- Header of `format_open_meteo_forecast`: location at 4 decimal places,
then the timezone. -/
def om_header (f : OpenMeteoResponse) : String :=
  "Weather Forecast (Open-Meteo)\nLocation: " ++ fmtFixed 4 f.latitude ++ ", " ++
    fmtFixed 4 f.longitude ++ "\nTimezone: " ++ f.timezone ++ "\n\n"

/-- Embedding of `format_open_meteo_forecast` (src/formatters.rs); `none`
models the panic of an out-of-bounds array access. -/
def format_open_meteo_forecast (f : OpenMeteoResponse) : Option String :=
  match open_meteo_blocks f with
  | none => none
  | some blocks => some (om_header f ++ String.join blocks)

/-- Embedding of `Weather::is_us_location` (src/service.rs). -/
def is_us_location (latitude longitude : FP) : Bool :=
  latitude.ge (.fin 24) && latitude.le (.fin 72) &&
    longitude.ge (.fin (-180)) && longitude.le (.fin (-60))

/-- Stubbed HTTP exchange for a body of shape `T`: the response status and
either the decoded body or a decode-error message. -/
structure HttpResp (T : Type) where
  status : Nat
  body : Except String T

/-- Status success test (`reqwest::StatusCode::is_success`: 2xx). -/
def statusIsSuccess (status : Nat) : Bool :=
  200 ≤ status && status ≤ 299

/-- Embedding of `Weather::make_request` (src/service.rs): non-success status
fails with the bail message carrying the status; otherwise the decode result
is returned (with its own error message on decode failure). -/
def make_request {T : Type} (resp : HttpResp T) : Except String T :=
  if !statusIsSuccess resp.status then
    Except.error ("Request failed with status: " ++ toString resp.status)
  else
    match resp.body with
    | Except.ok v => Except.ok v
    | Except.error msg => Except.error msg

/-- Stubbed transport: one typed endpoint per expected response shape, keyed
by the request URL. -/
structure Transport where
  points : String → HttpResp PointsResponse
  forecast : String → HttpResp ForecastResponse
  openMeteo : String → HttpResp OpenMeteoResponse
  alerts : String → HttpResp AlertResponse

/-- Tool-level error type (`rmcp::ErrorData` as used by the source): the
invalid-parameters condition or the internal-error condition, with message. -/
inductive McpError where
  | invalid_params : String → McpError
  | internal_error : String → McpError
deriving DecidableEq

/-- Is the tool-level error the internal-error condition? -/
def McpError.isInternal : McpError → Bool
  | .internal_error _ => true
  | .invalid_params _ => false

/-- Result of one tool call: `none` models a panic (out-of-bounds index);
otherwise the text payload or the tool-level error. -/
abbrev ToolResult : Type := Option (Except McpError String)

/-- Fixed user message of the grid-point not-found mapping (src/service.rs). -/
def nws_not_found_msg : String :=
  "Location not found in NWS coverage area. This location may be in US waters not covered by the grid system."

/-- URL of the grid-point fetch (`points_url` in `get_forecast_nws`). -/
def points_url (request : GetForecastRequest) : String :=
  NWS_API_BASE ++ "/points/" ++ dispFP request.latitude ++ "," ++ dispFP request.longitude

/-- URL of the forecast fetch keyed by the resolved grid point
(`forecast_url` in `get_forecast_nws`). -/
def forecast_url (points : PointsResponse) : String :=
  NWS_API_BASE ++ "/gridpoints/" ++ points.properties.grid_id ++ "/" ++
    toString points.properties.grid_x ++ "," ++ toString points.properties.grid_y ++
    "/forecast"

/-- URL of the single Open-Meteo fetch (`url` in `get_forecast_open_meteo`):
latitude, longitude, the fixed daily fields list, and timezone=auto. -/
def open_meteo_url (request : GetForecastRequest) : String :=
  OPEN_METEO_API_BASE ++ "/forecast?latitude=" ++ dispFP request.latitude ++
    "&longitude=" ++ dispFP request.longitude ++
    "&daily=temperature_2m_max,temperature_2m_min,weather_code,wind_speed_10m_max,precipitation_sum&timezone=auto"

/-- Embedding of `Weather::get_forecast_nws` (src/service.rs), returning the
result together with the list of issued fetch URLs in order. -/
def get_forecast_nws (t : Transport) (request : GetForecastRequest) :
    ToolResult × List String :=
  let purl := points_url request
  match make_request (t.points purl) with
  | Except.error e =>
    (some (Except.error
      (if containsSubstr "404" e then
        McpError.invalid_params nws_not_found_msg
      else
        McpError.internal_error ("Failed to fetch grid points: " ++ e))), [purl])
  | Except.ok points =>
    let furl := forecast_url points
    match make_request (t.forecast furl) with
    | Except.error e =>
      (some (Except.error (McpError.internal_error ("Failed to fetch forecast: " ++ e))),
        [purl, furl])
    | Except.ok forecast =>
      (some (Except.ok (format_forecast forecast)), [purl, furl])

/-- Embedding of `Weather::get_forecast_open_meteo` (src/service.rs). -/
def get_forecast_open_meteo (t : Transport) (request : GetForecastRequest) :
    ToolResult × List String :=
  let url := open_meteo_url request
  match make_request (t.openMeteo url) with
  | Except.error e =>
    (some (Except.error
      (McpError.internal_error ("Failed to fetch Open-Meteo forecast: " ++ e))), [url])
  | Except.ok forecast =>
    ((format_open_meteo_forecast forecast).map Except.ok, [url])

/-- Embedding of the tool `Weather::get_forecast` (src/service.rs): route by
the classifier, then run the chosen provider path. -/
def get_forecast (t : Transport) (request : GetForecastRequest) :
    ToolResult × List String :=
  if is_us_location request.latitude request.longitude then
    get_forecast_nws t request
  else
    get_forecast_open_meteo t request

/-- URL of the alerts fetch in `Weather::get_alerts`. -/
def alerts_url (request : GetAlertsRequest) : String :=
  NWS_API_BASE ++ "/alerts/active?area=" ++ request.state

/-- Embedding of the tool `Weather::get_alerts` (src/service.rs). -/
def get_alerts (t : Transport) (request : GetAlertsRequest) :
    ToolResult × List String :=
  let url := alerts_url request
  match make_request (t.alerts url) with
  | Except.error e =>
    (some (Except.error (McpError.internal_error ("Failed to fetch alerts: " ++ e))), [url])
  | Except.ok alerts =>
    (some (Except.ok (format_alerts alerts)), [url])

/-- Example grid point (shape of a `/points` response). -/
def exPoints : PointsResponse := ⟨⟨"OKX", 33, 35⟩⟩

/-- Example NWS forecast period. -/
def exPeriod1 : ForecastPeriod :=
  ⟨"Tonight", 45, "F", "10 mph", "NW", "Clear", "Clear skies tonight."⟩

/-- Second example NWS forecast period. -/
def exPeriod2 : ForecastPeriod :=
  ⟨"Monday", 58, "F", "5 to 10 mph", "SE", "Sunny", "Sunny, with a high near 58."⟩

/-- Example NWS forecast response with two periods. -/
def exForecast : ForecastResponse := ⟨⟨[exPeriod1, exPeriod2]⟩⟩

/-- Example Open-Meteo units record. -/
def exUnits : DailyUnits := ⟨"°C", "km/h", "mm"⟩

/-- Balanced daily arrays with `n` entries each. -/
def exDaily (n : Nat) : DailyData :=
  ⟨(List.range n).map (fun i => "2025-01-" ++ toString (i + 1)),
    (List.range n).map (fun i => FP.fin (mkRat (10 + (i : Int)) 1)),
    (List.range n).map (fun i => FP.fin (mkRat (2 + (i : Int)) 1)),
    (List.range n).map (fun i => (i : Int)),
    (List.range n).map (fun i => FP.fin (mkRat (20 + (i : Int)) 1)),
    (List.range n).map (fun _ => FP.fin (mkRat 0 1))⟩

/-- Open-Meteo response with 10 days of data. -/
def ex10 : OpenMeteoResponse :=
  ⟨FP.fin (mkRat 5252 100), FP.fin (mkRat 1341 100), "Europe/Berlin", exDaily 10, exUnits⟩

/-- Open-Meteo response with 3 days of data. -/
def ex3 : OpenMeteoResponse :=
  ⟨FP.fin (mkRat 5252 100), FP.fin (mkRat 1341 100), "Europe/Berlin", exDaily 3, exUnits⟩

/-- Open-Meteo response whose weather-code array (length 1) is shorter than
`min 7 (length time)` = 2: the loop reaches an out-of-bounds access. -/
def exShort : OpenMeteoResponse :=
  ⟨FP.fin (mkRat 5252 100), FP.fin (mkRat 1341 100), "Europe/Berlin",
    ⟨["2025-01-1", "2025-01-2"], [FP.fin 10, FP.fin 11], [FP.fin 2, FP.fin 3],
      [0], [FP.fin 20, FP.fin 21], [FP.fin 0, FP.fin 0]⟩, exUnits⟩

/-- Example alert with headline and description present. -/
def exAlertProps1 : AlertProperties :=
  ⟨"Flood Warning", some "Flood Warning issued for Bergen County",
    some "Heavy rain expected", "Severe", "Bergen County"⟩

/-- Example alert lacking headline and description. -/
def exAlertProps2 : AlertProperties :=
  ⟨"Wind Advisory", none, none, "Moderate", "Hudson County"⟩

/-- Example alert response with two records. -/
def exAlerts2 : AlertResponse := ⟨[⟨exAlertProps1⟩, ⟨exAlertProps2⟩]⟩

/-- One alert record (N = 1) whose event field itself contains the text
"Alert ". -/
def advAlerts : AlertResponse :=
  ⟨[⟨⟨"Alert Test", none, none, "Severe", "Coastal Zone"⟩⟩]⟩

/-- New York coordinates from the spec's end-to-end property. -/
def reqNY : GetForecastRequest := ⟨FP.fin (mkRat 407128 10000), FP.fin (mkRat (-740060) 10000)⟩

/-- Berlin coordinates from the spec's end-to-end property. -/
def reqBerlin : GetForecastRequest := ⟨FP.fin (mkRat 5252 100), FP.fin (mkRat 1341 100)⟩

/-- Stub transport answering every endpoint successfully. -/
def exTransport : Transport where
  points := fun _ => ⟨200, Except.ok exPoints⟩
  forecast := fun _ => ⟨200, Except.ok exForecast⟩
  openMeteo := fun _ => ⟨200, Except.ok ex3⟩
  alerts := fun _ => ⟨200, Except.ok exAlerts2⟩

/-- Stub transport whose grid-point endpoint decodes unsuccessfully with a
serde-style message whose line/column position happens to contain "404". -/
def decode404Transport : Transport where
  points := fun _ =>
    ⟨200, Except.error "error decoding response body: missing field gridId at line 1 column 404"⟩
  forecast := fun _ => ⟨200, Except.ok exForecast⟩
  openMeteo := fun _ => ⟨200, Except.ok ex3⟩
  alerts := fun _ => ⟨200, Except.ok exAlerts2⟩

/-- Is the tool result an internal-error condition? -/
def resultIsInternal : ToolResult → Bool
  | some (Except.error e) => e.isInternal
  | _ => false

/-- Helper: an in-range partial list access succeeds. -/
theorem get?_isSome_of_lt {α : Type} (l : List α) (n : Nat) (h : n < l.length) :
    (l.get? n).isSome = true := by
  induction l generalizing n with
  | nil => simp at h
  | cons a l ih =>
    cases n with
    | zero => rfl
    | succ n => exact ih n (Nat.lt_of_succ_lt_succ h)

/-- Helper: `mapOpt` preserves the length when it succeeds. -/
theorem mapOpt_length {α β : Type} (g : α → Option β) (l : List α) (bs : List β)
    (h : mapOpt g l = some bs) : bs.length = l.length := by
  induction l generalizing bs with
  | nil =>
    simp only [mapOpt, Option.some.injEq] at h
    subst h
    rfl
  | cons a l ih =>
    simp only [mapOpt] at h
    cases hga : g a with
    | none => rw [hga] at h; simp at h
    | some b =>
      rw [hga] at h
      cases hml : mapOpt g l with
      | none => rw [hml] at h; simp at h
      | some bs2 =>
        rw [hml] at h
        simp only [Option.some.injEq] at h
        subst h
        simp [ih bs2 hml]

/-- Helper: `mapOpt` succeeds when every element does. -/
theorem mapOpt_isSome {α β : Type} (g : α → Option β) (l : List α)
    (h : ∀ a ∈ l, (g a).isSome = true) : (mapOpt g l).isSome = true := by
  induction l with
  | nil => rfl
  | cons a l ih =>
    obtain ⟨b, hb⟩ := Option.isSome_iff_exists.mp (h a (List.mem_cons_self a l))
    obtain ⟨bs, hbs⟩ :=
      Option.isSome_iff_exists.mp (ih fun x hx => h x (List.mem_cons_of_mem a hx))
    simp [mapOpt, hb, hbs]

/-- C1: the location classifier `is_us_location` is a pure total Boolean
function on the embedded floats that returns true exactly when the latitude
is a (finite) value in the closed interval [24, 72] and the longitude one in
[-180, -60]; the boundary corners are covered, (23.999, -100) is not covered,
and (24.0, -60.0) is covered. -/
theorem c1_coversLocation_box :
    (∀ latitude longitude : FP,
      is_us_location latitude longitude = true ↔
        ((∃ a : ℚ, latitude = FP.fin a ∧ 24 ≤ a ∧ a ≤ 72) ∧
          (∃ b : ℚ, longitude = FP.fin b ∧ -180 ≤ b ∧ b ≤ -60))) ∧
    is_us_location (FP.fin 24) (FP.fin (-180)) = true ∧
    is_us_location (FP.fin 72) (FP.fin (-60)) = true ∧
    is_us_location (FP.fin (mkRat 23999 1000)) (FP.fin (-100)) = false ∧
    is_us_location (FP.fin 24) (FP.fin (-60)) = true := by
  refine ⟨?_, by decide, by decide, by decide, by decide⟩
  intro lat lon
  cases lat <;> cases lon <;>
    simp [is_us_location, FP.ge, FP.le, and_assoc]

/-- C6: `weather_code_to_description` realizes exactly the WMO table of the
spec, and maps every unlisted code to "Unknown". -/
theorem c6_weather_code_table :
    (weather_code_to_description 0 = "Clear sky" ∧
      weather_code_to_description 1 = "Mainly clear" ∧
      weather_code_to_description 2 = "Partly cloudy" ∧
      weather_code_to_description 3 = "Overcast" ∧
      weather_code_to_description 45 = "Foggy" ∧
      weather_code_to_description 48 = "Foggy" ∧
      weather_code_to_description 51 = "Drizzle" ∧
      weather_code_to_description 53 = "Drizzle" ∧
      weather_code_to_description 55 = "Drizzle" ∧
      weather_code_to_description 61 = "Rain" ∧
      weather_code_to_description 63 = "Rain" ∧
      weather_code_to_description 65 = "Rain" ∧
      weather_code_to_description 71 = "Snow" ∧
      weather_code_to_description 73 = "Snow" ∧
      weather_code_to_description 75 = "Snow" ∧
      weather_code_to_description 77 = "Snow grains" ∧
      weather_code_to_description 80 = "Rain showers" ∧
      weather_code_to_description 81 = "Rain showers" ∧
      weather_code_to_description 82 = "Rain showers" ∧
      weather_code_to_description 85 = "Snow showers" ∧
      weather_code_to_description 86 = "Snow showers" ∧
      weather_code_to_description 95 = "Thunderstorm" ∧
      weather_code_to_description 96 = "Thunderstorm with hail" ∧
      weather_code_to_description 99 = "Thunderstorm with hail") ∧
    (∀ code : Int,
      code ∉ ([0, 1, 2, 3, 45, 48, 51, 53, 55, 61, 63, 65, 71, 73, 75, 77, 80,
        81, 82, 85, 86, 95, 96, 99] : List Int) →
      weather_code_to_description code = "Unknown") := by
  refine ⟨by decide, ?_⟩
  intro code h
  simp only [List.mem_cons, List.not_mem_nil, or_false, not_or] at h
  obtain ⟨h0, h1, h2, h3, h45, h48, h51, h53, h55, h61, h63, h65, h71, h73,
    h75, h77, h80, h81, h82, h85, h86, h95, h96, h99⟩ := h
  simp [weather_code_to_description, h0, h1, h2, h3, h45, h48, h51, h53, h55,
    h61, h63, h65, h71, h73, h75, h77, h80, h81, h82, h85, h86, h95, h96, h99]

/-- Witness for C6: the unmapped code 7 yields "Unknown". -/
theorem c6_weather_code_table_witness : weather_code_to_description 7 = "Unknown" :=
  c6_weather_code_table.2 7 (by decide)

/-- C8: `format_forecast` produces the "Weather Forecast:" header and then,
for every period in input order with no truncation, the name / Temperature
(degree-sign-prefixed unit) / Wind (speed and direction) / Conditions /
Details block with a blank-line separator; checked in closed form and on a
concrete two-period response. -/
theorem c8_format_forecast_shape :
    (∀ forecast : ForecastResponse,
      format_forecast forecast =
        "Weather Forecast:\n\n" ++
          String.join (forecast.properties.periods.map (fun period =>
            period.name ++ ":\n  Temperature: " ++ toString period.temperature ++
              "°" ++ period.temperature_unit ++ "\n  Wind: " ++ period.wind_speed ++
              " " ++ period.wind_direction ++ "\n  Conditions: " ++
              period.short_forecast ++ "\n  Details: " ++ period.detailed_forecast ++
              "\n\n")) ∧
      (forecast.properties.periods.map period_block).length =
        forecast.properties.periods.length) ∧
    format_forecast exForecast =
      "Weather Forecast:\n\nTonight:\n  Temperature: 45°F\n  Wind: 10 mph NW\n  Conditions: Clear\n  Details: Clear skies tonight.\n\nMonday:\n  Temperature: 58°F\n  Wind: 5 to 10 mph SE\n  Conditions: Sunny\n  Details: Sunny, with a high near 58.\n\n" := by
  exact ⟨fun forecast => ⟨rfl, by simp⟩, by decide⟩

/-- C10: a NaN latitude or longitude makes every comparison of the classifier
false, so `get_forecast` always takes the Open-Meteo path for it. -/
theorem c10_nan_routes_secondary (latitude longitude : FP) (t : Transport)
    (h : latitude = FP.nan ∨ longitude = FP.nan) :
    is_us_location latitude longitude = false ∧
    get_forecast t ⟨latitude, longitude⟩ = get_forecast_open_meteo t ⟨latitude, longitude⟩ := by
  have hc : is_us_location latitude longitude = false := by
    rcases h with h | h <;> subst h
    · simp [is_us_location, FP.ge, FP.le]
    · simp [is_us_location, FP.ge, FP.le]
  refine ⟨hc, ?_⟩
  simp [get_forecast, hc]

/-- Witness for C10 at NaN latitude and longitude 0. -/
theorem c10_nan_routes_secondary_witness :
    is_us_location FP.nan (FP.fin 0) = false ∧
    get_forecast exTransport ⟨FP.nan, FP.fin 0⟩ =
      get_forecast_open_meteo exTransport ⟨FP.nan, FP.fin 0⟩ :=
  c10_nan_routes_secondary FP.nan (FP.fin 0) exTransport (Or.inl rfl)

/-- C4: the Open-Meteo formatter renders exactly min(7, N) day blocks where N
is the length of the daily time array (the loop runs over indices
0 .. min(7, N) exclusive); 10 days of data give 7 blocks, 3 days give 3. -/
theorem c4_open_meteo_truncation :
    (∀ (f : OpenMeteoResponse) (bs : List String),
      open_meteo_blocks f = some bs → bs.length = Nat.min 7 f.daily.time.length) ∧
    (open_meteo_blocks ex10).map List.length = some 7 ∧
    (open_meteo_blocks ex3).map List.length = some 3 := by
  refine ⟨?_, rfl, rfl⟩
  intro f bs h
  simp only [open_meteo_blocks] at h
  rw [mapOpt_length _ _ _ h, List.length_range]
  exact Nat.min_comm _ _

/-- Witness for C4 at the 10-day response. -/
theorem c4_open_meteo_truncation_witness :
    ((open_meteo_blocks ex10).getD []).length = Nat.min 7 ex10.daily.time.length :=
  c4_open_meteo_truncation.1 ex10 ((open_meteo_blocks ex10).getD []) rfl

/-- C5: in every rendered day block the temperature line shows the minimum
first and the maximum second and attaches the units record's max-temperature
unit string to both values; the deserialized `DailyUnits` record contains no
min-temperature unit field that could be consulted. -/
theorem c5_temperature_unit_reuse (f : OpenMeteoResponse) (i : Nat)
    (date : String) (tmin tmax : FP) (code : Int) (wind prec : FP)
    (hdate : f.daily.time.get? i = some date)
    (htmin : f.daily.temperature_min.get? i = some tmin)
    (htmax : f.daily.temperature_max.get? i = some tmax)
    (hcode : f.daily.weather_code.get? i = some code)
    (hwind : f.daily.wind_speed_max.get? i = some wind)
    (hprec : f.daily.precipitation_sum.get? i = some prec) :
    day_block f i =
      some ((date ++ ":\n") ++
        temp_line tmin tmax f.daily_units.temperature_max ++
        om_day_rest f.daily_units code wind prec) ∧
    temp_line tmin tmax f.daily_units.temperature_max =
      "  Temperature: " ++ fmtFixed 1 tmin ++ "°" ++ f.daily_units.temperature_max ++
        " - " ++ fmtFixed 1 tmax ++ "°" ++ f.daily_units.temperature_max ++ "\n" := by
  refine ⟨?_, rfl⟩
  rw [List.get?_eq_getElem?] at hdate htmin htmax hcode hwind hprec
  simp [day_block, hdate, htmin, htmax, hcode, hwind, hprec]

/-- Witness for C5 at day 0 of the 3-day response. -/
theorem c5_temperature_unit_reuse_witness :
    day_block ex3 0 =
      some (("2025-01-1" ++ ":\n") ++
        temp_line (FP.fin 2) (FP.fin 10) ex3.daily_units.temperature_max ++
        om_day_rest ex3.daily_units 0 (FP.fin 20) (FP.fin 0)) ∧
    temp_line (FP.fin 2) (FP.fin 10) ex3.daily_units.temperature_max =
      "  Temperature: " ++ fmtFixed 1 (FP.fin 2) ++ "°" ++
        ex3.daily_units.temperature_max ++ " - " ++ fmtFixed 1 (FP.fin 10) ++ "°" ++
        ex3.daily_units.temperature_max ++ "\n" :=
  c5_temperature_unit_reuse ex3 0 "2025-01-1" (FP.fin 2) (FP.fin 10) 0
    (FP.fin 20) (FP.fin 0) (by decide) (by decide) (by decide) (by decide)
    (by decide) (by decide)

/-- C7 counterexample: with a single record (N = 1) whose event field itself
contains the text "Alert ", the output contains 2 occurrences of that
literal, not exactly N = 1 as the claim states. -/
theorem c7_alert_count_counterexample :
    advAlerts.features.length = 1 ∧
    countOccurrences "Alert " (format_alerts advAlerts) = 2 :=
  ⟨rfl, by decide⟩

/-- C7 (amended): the empty sequence gives the exact literal; a non-empty
sequence of N records gives the header then one block per record in input
order, the n-th block beginning with the literal "Alert n:" (field text may
itself contain "Alert ", adding further occurrences), each block carrying
Event, Severity and Area lines, Headline and Description lines only when the
optional fields are present, and a blank-line separator. -/
theorem c7_format_alerts_amended :
    (∀ alerts : AlertResponse, alerts.features = [] →
      format_alerts alerts = "No active weather alerts.") ∧
    (∀ alerts : AlertResponse, alerts.features ≠ [] →
      format_alerts alerts =
        "Active Weather Alerts:\n\n" ++
          String.join (alerts.features.enum.map (fun p => alert_block p.1 p.2))) ∧
    (∀ alerts : AlertResponse,
      (alerts.features.enum.map (fun p => alert_block p.1 p.2)).length =
        alerts.features.length) ∧
    (∀ (i : Nat) (feature : AlertFeature),
      alert_block i feature =
        ("Alert " ++ toString (i + 1) ++ ":\n  Event: " ++
            feature.properties.event ++ "\n  Severity: " ++
            feature.properties.severity ++ "\n  Area: " ++
            feature.properties.area_desc ++ "\n") ++
          (match feature.properties.headline with
            | some headline => "  Headline: " ++ headline ++ "\n"
            | none => "") ++
          (match feature.properties.description with
            | some description => "  Description: " ++ description ++ "\n"
            | none => "") ++ "\n") ∧
    format_alerts exAlerts2 =
      "Active Weather Alerts:\n\nAlert 1:\n  Event: Flood Warning\n  Severity: Severe\n  Area: Bergen County\n  Headline: Flood Warning issued for Bergen County\n  Description: Heavy rain expected\n\nAlert 2:\n  Event: Wind Advisory\n  Severity: Moderate\n  Area: Hudson County\n\n" := by
  refine ⟨?_, ?_, ?_, fun i feature => rfl, by decide⟩
  · intro alerts h
    simp [format_alerts, h]
  · intro alerts h
    cases halerts : alerts.features with
    | nil => exact absurd halerts h
    | cons a l => simp [format_alerts, halerts]
  · intro alerts
    simp

/-- Witness for C7 at the empty response and the two-record response. -/
theorem c7_format_alerts_amended_witness :
    format_alerts ⟨[]⟩ = "No active weather alerts." ∧
    format_alerts exAlerts2 =
      "Active Weather Alerts:\n\n" ++
        String.join (exAlerts2.features.enum.map (fun p => alert_block p.1 p.2)) :=
  ⟨c7_format_alerts_amended.1 ⟨[]⟩ rfl,
    c7_format_alerts_amended.2.1 exAlerts2 (by decide)⟩

/-- C9: when the six daily arrays have a common length every array index the
Open-Meteo formatter accesses is in bounds, so it is total under that
precondition; the loop bound is read from the time array alone, and the
response `exShort`, whose weather-code array is shorter than
min(7, length time), reaches an out-of-bounds access. -/
theorem c9_open_meteo_bounds (f : OpenMeteoResponse)
    (hmax : f.daily.temperature_max.length = f.daily.time.length)
    (hmin : f.daily.temperature_min.length = f.daily.time.length)
    (hcode : f.daily.weather_code.length = f.daily.time.length)
    (hwind : f.daily.wind_speed_max.length = f.daily.time.length)
    (hprec : f.daily.precipitation_sum.length = f.daily.time.length) :
    (format_open_meteo_forecast f).isSome = true ∧
    format_open_meteo_forecast exShort = none := by
  refine ⟨?_, rfl⟩
  have hblocks : (open_meteo_blocks f).isSome = true := by
    simp only [open_meteo_blocks]
    apply mapOpt_isSome
    intro i hi
    rw [List.mem_range] at hi
    have hiN : i < f.daily.time.length := lt_of_lt_of_le hi (Nat.min_le_left _ _)
    obtain ⟨code, hc⟩ := Option.isSome_iff_exists.mp
      (get?_isSome_of_lt _ i (show i < f.daily.weather_code.length by omega))
    obtain ⟨date, hd⟩ := Option.isSome_iff_exists.mp (get?_isSome_of_lt _ i hiN)
    obtain ⟨tmin, htn⟩ := Option.isSome_iff_exists.mp
      (get?_isSome_of_lt _ i (show i < f.daily.temperature_min.length by omega))
    obtain ⟨tmax, htx⟩ := Option.isSome_iff_exists.mp
      (get?_isSome_of_lt _ i (show i < f.daily.temperature_max.length by omega))
    obtain ⟨wind, hw⟩ := Option.isSome_iff_exists.mp
      (get?_isSome_of_lt _ i (show i < f.daily.wind_speed_max.length by omega))
    obtain ⟨prec, hp⟩ := Option.isSome_iff_exists.mp
      (get?_isSome_of_lt _ i (show i < f.daily.precipitation_sum.length by omega))
    rw [List.get?_eq_getElem?] at hc hd htn htx hw hp
    simp [day_block, hc, hd, htn, htx, hw, hp]
  obtain ⟨blocks, hb⟩ := Option.isSome_iff_exists.mp hblocks
  simp [format_open_meteo_forecast, hb]

/-- Witness for C9 at the balanced 3-day response. -/
theorem c9_open_meteo_bounds_witness :
    (format_open_meteo_forecast ex3).isSome = true ∧
    format_open_meteo_forecast exShort = none :=
  c9_open_meteo_bounds ex3 rfl rfl rfl rfl rfl

/-- Stub transport whose grid-point endpoint fails with the not-found status. -/
def status404Transport : Transport where
  points := fun _ => ⟨404, Except.error "Not Found"⟩
  forecast := fun _ => ⟨200, Except.ok exForecast⟩
  openMeteo := fun _ => ⟨200, Except.ok ex3⟩
  alerts := fun _ => ⟨200, Except.ok exAlerts2⟩

/-- C2: `get_forecast` routes by the classifier.  A covered location takes the
NWS path: its first fetch is the /points URL built from the coordinates, and
when grid resolution succeeds the second fetch is the /gridpoints forecast URL
keyed by the resolved grid id/x/y.  An uncovered location takes the Open-Meteo
path, issuing exactly one fetch to the /forecast URL carrying latitude,
longitude, the fixed daily fields list and timezone=auto.  New York
(40.7128, -74.0060) is covered; Berlin (52.52, 13.41) is not. -/
theorem c2_get_forecast_routing :
    (∀ (t : Transport) (request : GetForecastRequest),
      (is_us_location request.latitude request.longitude = true →
        get_forecast t request = get_forecast_nws t request ∧
        (∀ e, make_request (t.points (points_url request)) = Except.error e →
          (get_forecast_nws t request).2 = [points_url request]) ∧
        (∀ points, make_request (t.points (points_url request)) = Except.ok points →
          (get_forecast_nws t request).2 = [points_url request, forecast_url points])) ∧
      (is_us_location request.latitude request.longitude = false →
        get_forecast t request = get_forecast_open_meteo t request ∧
        (get_forecast_open_meteo t request).2 = [open_meteo_url request])) ∧
    is_us_location reqNY.latitude reqNY.longitude = true ∧
    is_us_location reqBerlin.latitude reqBerlin.longitude = false := by
  refine ⟨?_, by decide, by decide⟩
  intro t request
  constructor
  · intro h
    refine ⟨by simp [get_forecast, h], ?_, ?_⟩
    · intro e he
      simp [get_forecast_nws, he]
    · intro points hp
      cases hf : make_request (t.forecast (forecast_url points)) with
      | error e2 => simp [get_forecast_nws, hp, hf]
      | ok f2 => simp [get_forecast_nws, hp, hf]
  · intro h
    refine ⟨by simp [get_forecast, h], ?_⟩
    cases hm : make_request (t.openMeteo (open_meteo_url request)) with
    | error e => simp [get_forecast_open_meteo, hm]
    | ok f => simp [get_forecast_open_meteo, hm]

/-- Witness for C2 on the stub transport: New York through the NWS pair of
fetches, Berlin through the single Open-Meteo fetch. -/
theorem c2_get_forecast_routing_witness :
    get_forecast exTransport reqNY = get_forecast_nws exTransport reqNY ∧
    (get_forecast_nws exTransport reqNY).2 = [points_url reqNY, forecast_url exPoints] ∧
    get_forecast exTransport reqBerlin = get_forecast_open_meteo exTransport reqBerlin ∧
    (get_forecast_open_meteo exTransport reqBerlin).2 = [open_meteo_url reqBerlin] :=
  ⟨((c2_get_forecast_routing.1 exTransport reqNY).1 (by decide)).1,
    ((c2_get_forecast_routing.1 exTransport reqNY).1 (by decide)).2.2 exPoints rfl,
    ((c2_get_forecast_routing.1 exTransport reqBerlin).2 (by decide)).1,
    ((c2_get_forecast_routing.1 exTransport reqBerlin).2 (by decide)).2⟩

/-- C3 counterexample: a grid-point DECODE failure whose serde-style message
happens to contain "404" (here a column number) is mapped to the
invalid-input condition, not to an internal error as the claim requires of
every decode failure. -/
theorem c3_decode404_counterexample :
    (get_forecast decode404Transport reqNY).1 =
      some (Except.error (McpError.invalid_params nws_not_found_msg)) ∧
    resultIsInternal (get_forecast decode404Transport reqNY).1 = false :=
  ⟨rfl, rfl⟩

/-- Helper: the bail message of a status below 1000 other than 404 does not
contain the substring "404". -/
theorem status_msg_no_404 :
    ∀ s : Nat, s < 1000 → s ≠ 404 →
      containsSubstr "404" ("Request failed with status: " ++ toString s) = false := by
  decide

/-- C3 (amended): during grid-point resolution the 404 status maps to the
invalid-input condition with the fixed coverage/open-water message, and every
other non-success status maps to an internal error embedding the message with
the numeric status; a decode failure maps to an internal error embedding its
message unless that message itself contains the substring "404" (the source
tests the formatted error text for "404"), in which case it too is mapped to
invalid-input.  The grid-point mapping is the only source of an invalid-input
error: any invalid-input result of `get_forecast` comes from a covered
location and carries the fixed message, and `get_alerts` never produces
one. -/
theorem c3_nws_error_mapping_amended :
    (∀ (t : Transport) (request : GetForecastRequest),
      ((t.points (points_url request)).status = 404 →
        (get_forecast_nws t request).1 =
          some (Except.error (McpError.invalid_params nws_not_found_msg))) ∧
      (∀ s : Nat, (t.points (points_url request)).status = s →
        statusIsSuccess s = false → s < 1000 → s ≠ 404 →
        (get_forecast_nws t request).1 =
          some (Except.error (McpError.internal_error
            ("Failed to fetch grid points: " ++
              ("Request failed with status: " ++ toString s))))) ∧
      (∀ msg : String,
        statusIsSuccess (t.points (points_url request)).status = true →
        (t.points (points_url request)).body = Except.error msg →
        containsSubstr "404" msg = false →
        (get_forecast_nws t request).1 =
          some (Except.error (McpError.internal_error
            ("Failed to fetch grid points: " ++ msg)))) ∧
      (∀ msg : String,
        statusIsSuccess (t.points (points_url request)).status = true →
        (t.points (points_url request)).body = Except.error msg →
        containsSubstr "404" msg = true →
        (get_forecast_nws t request).1 =
          some (Except.error (McpError.invalid_params nws_not_found_msg)))) ∧
    (∀ (t : Transport) (request : GetForecastRequest) (m : String),
      (get_forecast t request).1 = some (Except.error (McpError.invalid_params m)) →
      is_us_location request.latitude request.longitude = true ∧
        m = nws_not_found_msg) ∧
    (∀ (t : Transport) (request : GetAlertsRequest) (m : String),
      (get_alerts t request).1 ≠ some (Except.error (McpError.invalid_params m))) := by
  refine ⟨?_, ?_, ?_⟩
  · intro t request
    refine ⟨?_, ?_, ?_, ?_⟩
    · intro h404
      have hs : statusIsSuccess 404 = false := by decide
      have hc : containsSubstr "404"
          ("Request failed with status: " ++ toString (404 : Nat)) = true := by decide
      simp [get_forecast_nws, make_request, h404, hs, hc]
    · intro s hstat hfail hlt hne
      have hc := status_msg_no_404 s hlt hne
      simp [get_forecast_nws, make_request, hstat, hfail, hc]
    · intro msg hsucc hbody hc
      simp [get_forecast_nws, make_request, hsucc, hbody, hc]
    · intro msg hsucc hbody hc
      simp [get_forecast_nws, make_request, hsucc, hbody, hc]
  · intro t request m h
    by_cases hroute : is_us_location request.latitude request.longitude = true
    · refine ⟨hroute, ?_⟩
      simp only [get_forecast, hroute, if_true] at h
      cases hm : make_request (t.points (points_url request)) with
      | error e =>
        simp only [get_forecast_nws, hm] at h
        by_cases hc : containsSubstr "404" e = true
        · simp [hc] at h
          exact h.symm
        · simp only [Bool.not_eq_true] at hc
          simp [hc] at h
      | ok points =>
        cases hf : make_request (t.forecast (forecast_url points)) with
        | error e =>
          simp only [get_forecast_nws, hm, hf] at h
          simp at h
        | ok f2 =>
          simp only [get_forecast_nws, hm, hf] at h
          simp at h
    · exfalso
      simp only [Bool.not_eq_true] at hroute
      simp only [get_forecast, hroute, Bool.false_eq_true, if_false] at h
      cases hm : make_request (t.openMeteo (open_meteo_url request)) with
      | error e =>
        simp only [get_forecast_open_meteo, hm] at h
        simp at h
      | ok f =>
        simp only [get_forecast_open_meteo, hm] at h
        cases hfmt : format_open_meteo_forecast f with
        | none => rw [hfmt] at h; simp at h
        | some s => rw [hfmt] at h; simp at h
  · intro t request m h
    cases hm : make_request (t.alerts (alerts_url request)) with
    | error e =>
      simp only [get_alerts, hm] at h
      simp at h
    | ok a =>
      simp only [get_alerts, hm] at h
      simp at h

/-- Witness for C3 at a transport whose grid-point endpoint returns 404. -/
theorem c3_nws_error_mapping_amended_witness :
    (get_forecast_nws status404Transport reqNY).1 =
      some (Except.error (McpError.invalid_params nws_not_found_msg)) :=
  (c3_nws_error_mapping_amended.1 status404Transport reqNY).1 rfl

end WeatherServer
